import Mathlib

/-!
Shallow embedding of selected parts of the nym repository:

* `Client` — `common/client-core/src/client/base_client/mod.rs`:
  registration state machines, the bounded input channel, `mix_address`,
  `start_topology_refresher` and `start_base`.
* `Provider` — `sfw-provider/src/provider/mix_handling/packet_processing.rs`.
* `Dkg` — `contracts/coconut-dkg/src/epoch_state/transactions/mod.rs`.
* `Wallet` — `nym-wallet/src-tauri/src/operations/helpers.rs`.
* `Handshake` — `gateway/gateway-requests/src/registration/handshake/mod.rs`.

External libraries (sphinx, crypto, cosmwasm storage) are modelled
symbolically; side effects are made explicit by threading state and by
recording an event trace of the operations a function performs.
-/

namespace Client

/-- Identity/encryption/ack keys are abstracted to numeric key identifiers.
Base58 rendering of a key is modelled by an injective encoding into strings
(a run of `a` characters of length equal to the key id), with a fallible
decoder, standing in for `to_base58_string` / `from_base58_string`. -/
def key_to_base58 (key_id : Nat) : String :=
  String.mk (List.replicate key_id 'a')

/-- Fallible inverse of `key_to_base58`; `none` models a parse failure of a
malformed base58 string. -/
def key_from_base58 (s : String) : Option Nat :=
  if s.data.all (fun c => c == 'a') then some s.data.length else none

/-- `tokio::sync::mpsc::channel::<InputMessage>(capacity)` — a bounded
channel. `InputMessage` values are abstracted to numeric identifiers. -/
structure InputChannel where
  capacity : Nat
  queue : List Nat
deriving DecidableEq, Repr

/-- Outcome of a bounded-channel `send`: either the message was enqueued
(the call completes with the updated channel), or the channel is full and
the sender stays suspended until a receiver takes a message. -/
inductive SendOutcome where
  | completed (ch : InputChannel)
  | wouldBlock
deriving DecidableEq, Repr

/-- `Sender::send` on a bounded tokio channel: enqueue when below capacity,
otherwise the caller does not complete. -/
def InputChannel.send (ch : InputChannel) (message : Nat) : SendOutcome :=
  if ch.queue.length < ch.capacity then
    .completed { ch with queue := ch.queue ++ [message] }
  else
    .wouldBlock

/-- `Receiver::recv`: take the oldest queued message, freeing a slot. -/
def InputChannel.recv (ch : InputChannel) : Option (Nat × InputChannel) :=
  match ch.queue with
  | [] => none
  | m :: rest => some (m, { ch with queue := rest })

/-- `ClientInput` handle: connection-command sender (opaque unbounded
channel id) and the bounded input sender. -/
structure ClientInput where
  connection_command_sender : Nat
  input_sender : InputChannel
deriving DecidableEq, Repr

/-- `ClientInput::send` forwards to `self.input_sender.send(message)`. -/
def ClientInput.send (ci : ClientInput) (message : Nat) : SendOutcome :=
  ci.input_sender.send message

/-- `ClientOutput` handle: the received-buffer request sender (opaque
unbounded channel id). -/
structure ClientOutput where
  received_buffer_request_sender : Nat
deriving DecidableEq, Repr

/-- The `panic!` calls in `register_producer` / `register_consumer`
("producer/consumer was already registered before") are embedded as these
API-misuse errors. -/
inductive RegistrationError where
  | producerAlreadyRegistered
  | consumerAlreadyRegistered
deriving DecidableEq, Repr

/-- `ClientInputStatus`: the producer side of the registration state
machine. -/
inductive ClientInputStatus where
  | awaitingProducer (client_input : ClientInput)
  | connected
deriving DecidableEq, Repr

/-- `ClientInputStatus::register_producer`: replace the status with
`Connected`; yield the contained handle when the status was
`AwaitingProducer`, fail (source: panic) when it was already
`Connected`. -/
def ClientInputStatus.register_producer :
    ClientInputStatus → Except RegistrationError (ClientInput × ClientInputStatus)
  | .awaitingProducer client_input => .ok (client_input, .connected)
  | .connected => .error .producerAlreadyRegistered

/-- `ClientOutputStatus`: the consumer side of the registration state
machine. -/
inductive ClientOutputStatus where
  | awaitingConsumer (client_output : ClientOutput)
  | connected
deriving DecidableEq, Repr

/-- `ClientOutputStatus::register_consumer`: replace the status with
`Connected`; yield the contained handle when the status was
`AwaitingConsumer`, fail (source: panic) when it was already
`Connected`. -/
def ClientOutputStatus.register_consumer :
    ClientOutputStatus → Except RegistrationError (ClientOutput × ClientOutputStatus)
  | .awaitingConsumer client_output => .ok (client_output, .connected)
  | .connected => .error .consumerAlreadyRegistered

/-- A topology snapshot: number of mix nodes on each of the three layers
and the number of gateways. -/
structure NymTopology where
  layer1_mixnodes : Nat
  layer2_mixnodes : Nat
  layer3_mixnodes : Nat
  gateways : Nat
deriving DecidableEq, Repr

/-- A snapshot is routable iff every mix layer is non-empty and at least
one gateway is present. -/
def NymTopology.routable (t : NymTopology) : Bool :=
  t.layer1_mixnodes != 0 && t.layer2_mixnodes != 0 &&
    t.layer3_mixnodes != 0 && t.gateways != 0

/-- Routability of the topology accessor's contents; an empty accessor
(provider failure, nothing published) is not routable. -/
def routableOpt : Option NymTopology → Bool
  | none => false
  | some t => t.routable

/-- `config::Topology` — the part relevant here: the flag disabling the
periodic refresher task. -/
structure TopologyConfig where
  disable_refreshing : Bool
deriving DecidableEq, Repr

/-- `ClientCoreError` variants reachable from the embedded code paths. -/
inductive ClientCoreError where
  | insufficientNetworkTopology
  | unableToCreatePublicKeyFromGatewayId
  | surbStorageError
  | gatewayClientAuthFailure
  | keyOrGatewayInitialisationFailure
  | failedToRegisterReceiver
deriving DecidableEq, Repr

/-- Events recorded, in order, while `start_base` (and the helpers it
calls) runs: one per component brought up or per externally visible
startup step. -/
inductive StartEvent where
  | initialiseKeysAndGateway
  | startGatewayClient
  | setupPersistentReplyStorage
  | refreshTopology
  | ensureTopologyRoutable
  | markRefresherShutdownSuccess
  | spawnTopologyRefresherTask
  | startReceivedBufferController
  | startMixTrafficController
  | startRealTrafficController
  | startCoverTrafficStream
deriving DecidableEq, Repr

/-- `start_topology_refresher`: perform one `try_refresh` (publishing
whatever snapshot the provider produced, `provided`), then
`ensure_topology_is_routable`; on failure return
`InsufficientNetworkTopology` without starting anything. Otherwise, if
`disable_refreshing` is set, mark the shutdown handle as success and do
not spawn the refresher task; else spawn the refresher task. -/
def start_topology_refresher (provided : Option NymTopology)
    (topology_config : TopologyConfig) :
    Except ClientCoreError Unit × List StartEvent :=
  match provided with
  | none =>
    (.error .insufficientNetworkTopology,
      [.refreshTopology, .ensureTopologyRoutable])
  | some t =>
    if t.routable then
      if topology_config.disable_refreshing then
        (.ok (),
          [.refreshTopology, .ensureTopologyRoutable,
            .markRefresherShutdownSuccess])
      else
        (.ok (),
          [.refreshTopology, .ensureTopologyRoutable,
            .spawnTopologyRefresherTask])
    else
      (.error .insufficientNetworkTopology,
        [.refreshTopology, .ensureTopologyRoutable])

/-- `ManagedKeys`: the identity, encryption and ack key material (key
identifiers) plus the optional gateway-shared key. -/
structure ManagedKeys where
  identity_public_key : Nat
  encryption_public_key : Nat
  ack_key : Nat
  gateway_shared_key : Option Nat
deriving DecidableEq, Repr

/-- `Recipient` triple: client identity public key, client encryption
public key, gateway identity. -/
structure Recipient where
  client_identity : Nat
  client_encryption : Nat
  gateway : Nat
deriving DecidableEq, Repr

/-- `GatewayEndpointConfig`: the gateway id (base58 string) and listener
address. -/
structure GatewayEndpointConfig where
  gateway_id : String
  gateway_listener : String
deriving DecidableEq, Repr

/-- `BaseClientBuilder::mix_address`: build the `Recipient` from the
managed identity public key, the managed encryption public key, and the
gateway identity parsed from the configured `gateway_id`. The source
`unwrap`s the parse; the panic on a malformed id is embedded as `none`. -/
def mix_address (managed_keys : ManagedKeys)
    (gateway_config : GatewayEndpointConfig) : Option Recipient :=
  (key_from_base58 gateway_config.gateway_id).map fun gw =>
    { client_identity := managed_keys.identity_public_key
      client_encryption := managed_keys.encryption_public_key
      gateway := gw }

/-- `real_messages_control::Config`: the part relevant here — the ack key
and the client's own address handed to the real-traffic controller. -/
structure RealMessagesConfig where
  ack_key : Nat
  self_address : Recipient
deriving DecidableEq, Repr

/-- The `BaseClient` value returned by `start_base`. -/
structure BaseClient where
  address : Recipient
  client_input : ClientInputStatus
  client_output : ClientOutputStatus
deriving DecidableEq, Repr

/-- Instrumented result of `start_base`: the returned `BaseClient`
together with the `real_messages_control::Config` that was handed to the
spawned real-traffic controller. -/
structure StartedClient where
  base : BaseClient
  real_traffic_config : RealMessagesConfig
deriving DecidableEq, Repr

/-- The slice of `Config` that `start_base` consults in the embedded
paths. -/
structure Config where
  gateway_endpoint : GatewayEndpointConfig
  topology : TopologyConfig
  disable_loop_cover_traffic_stream : Bool
deriving DecidableEq, Repr

/-- Outcomes of the external effects `start_base` performs, fixed up
front: the loaded-or-generated key material, whether gateway
authentication succeeds, whether the reply-storage backend loads, and the
snapshot the topology provider returns. -/
structure StartBaseWorld where
  init_keys : Option ManagedKeys
  gateway_auth_ok : Bool
  reply_storage_load_ok : Bool
  provided_topology : Option NymTopology
deriving DecidableEq, Repr

/-- `BaseClientBuilder::start_base`, with the event trace of the
components it brings up, in source order: initialise keys and gateway
details, compute `self_address` via `mix_address`, start the gateway
client, set up persistent reply storage, run `start_topology_refresher`,
start the received-messages buffer controller, the mix-traffic
controller, the real-traffic controller, and (unless disabled) the cover
traffic stream. The input channel is created with capacity 1. -/
def start_base (config : Config) (world : StartBaseWorld) :
    Except ClientCoreError StartedClient × List StartEvent :=
  match world.init_keys with
  | none =>
    (.error .keyOrGatewayInitialisationFailure, [.initialiseKeysAndGateway])
  | some managed_keys =>
    match key_from_base58 config.gateway_endpoint.gateway_id with
    | none =>
      -- the `unwrap` inside `mix_address` panics on a malformed gateway id
      (.error .unableToCreatePublicKeyFromGatewayId,
        [.initialiseKeysAndGateway])
    | some gw =>
      let self_address : Recipient :=
        { client_identity := managed_keys.identity_public_key
          client_encryption := managed_keys.encryption_public_key
          gateway := gw }
      if !world.gateway_auth_ok then
        (.error .gatewayClientAuthFailure,
          [.initialiseKeysAndGateway, .startGatewayClient])
      else if !world.reply_storage_load_ok then
        (.error .surbStorageError,
          [.initialiseKeysAndGateway, .startGatewayClient,
            .setupPersistentReplyStorage])
      else
        let refresher :=
          start_topology_refresher world.provided_topology config.topology
        let events_so_far :=
          [StartEvent.initialiseKeysAndGateway, .startGatewayClient,
            .setupPersistentReplyStorage] ++ refresher.2
        match refresher.1 with
        | .error e => (.error e, events_so_far)
        | .ok () =>
          let later_events :=
            if config.disable_loop_cover_traffic_stream then
              [StartEvent.startReceivedBufferController,
                .startMixTrafficController, .startRealTrafficController]
            else
              [StartEvent.startReceivedBufferController,
                .startMixTrafficController, .startRealTrafficController,
                .startCoverTrafficStream]
          let input_channel : InputChannel := { capacity := 1, queue := [] }
          (.ok
            { base :=
                { address := self_address
                  client_input := .awaitingProducer
                    { connection_command_sender := 0
                      input_sender := input_channel }
                  client_output := .awaitingConsumer
                    { received_buffer_request_sender := 0 } }
              real_traffic_config :=
                { ack_key := managed_keys.ack_key
                  self_address := self_address } },
            events_so_far ++ later_events)

/-- `a` occurs in `tr` strictly before `b` (both present). -/
def eventOrderOk (tr : List StartEvent) (a b : StartEvent) : Bool :=
  decide (tr.indexOf a < tr.indexOf b) && decide (tr.indexOf b < tr.length)

/-- The startup order claimed by the specification (written from the
spec's words, for comparison with the trace the code produces): gateway
session, then topology accessor/refresher, then reply storage, then the
received-buffer controller, the mix-traffic controller, the real-traffic
controller, and the cover-traffic stream last. -/
def spec_claimed_start_order (tr : List StartEvent) : Bool :=
  eventOrderOk tr .startGatewayClient .refreshTopology &&
  eventOrderOk tr .refreshTopology .setupPersistentReplyStorage &&
  eventOrderOk tr .setupPersistentReplyStorage .startReceivedBufferController &&
  eventOrderOk tr .startReceivedBufferController .startMixTrafficController &&
  eventOrderOk tr .startMixTrafficController .startRealTrafficController &&
  eventOrderOk tr .startRealTrafficController .startCoverTrafficStream

/-- The startup order the code actually implements (cover-traffic stream
handled separately since it is optional): gateway session, then reply
storage, then the topology refresher, then the received-buffer,
mix-traffic and real-traffic controllers. -/
def actual_start_order (tr : List StartEvent) : Bool :=
  eventOrderOk tr .startGatewayClient .setupPersistentReplyStorage &&
  eventOrderOk tr .setupPersistentReplyStorage .refreshTopology &&
  eventOrderOk tr .refreshTopology .startReceivedBufferController &&
  eventOrderOk tr .startReceivedBufferController .startMixTrafficController &&
  eventOrderOk tr .startMixTrafficController .startRealTrafficController

end Client

namespace Provider

/-- `MixProcessingError` from
`sfw-provider/src/provider/mix_handling/packet_processing.rs`. -/
inductive MixProcessingError where
  | receivedForwardHopError
  | nonMatchingRecipient
  | invalidPayload
  | sphinxProcessingError
  | invalidHopAddress
deriving DecidableEq, Repr

/-- `MixProcessingResult`. -/
inductive MixProcessingResult where
  | forwardHop
  | finalHop
deriving DecidableEq, Repr

/-- A sphinx payload, abstracted by what
`try_recover_destination_and_plaintext` yields on it: the destination
address and plaintext when recoverable, `none` when unparseable.
Addresses are numeric identifiers, plaintexts byte lists. -/
structure SphinxPayload where
  recoverable : Option (Nat × List Nat)
deriving DecidableEq, Repr

/-- `Payload::try_recover_destination_and_plaintext`. -/
def try_recover_destination_and_plaintext (p : SphinxPayload) :
    Option (Nat × List Nat) :=
  p.recoverable

/-- A raw sphinx packet (`[u8; PACKET_SIZE]`), abstracted by the combined
outcome of `SphinxPacket::from_bytes` and `SphinxPacket::process` with
the provider's secret key (the sphinx library is external to the
sources): parse failure, processing failure, a forward hop, or a final
hop carrying the client address, SURB id and payload. -/
inductive SphinxUnwrapOutcome where
  | parseFailure
  | processFailure
  | forwardHop
  | finalHop (client_address : Nat) (surb_id : Nat) (payload : SphinxPayload)
deriving DecidableEq, Repr

/-- `StoreData::new(client_address, surb_id, message)` — one record in
the client store. -/
structure StoreData where
  client_address : Nat
  surb_id : Nat
  message : List Nat
deriving DecidableEq, Repr

/-- `PacketProcessor::process_final_hop`: recover destination and
plaintext from the payload (else `InvalidPayload`), require the
destination to equal the packet's client address (else
`NonMatchingRecipient`), then store the data and report `FinalHop`. The
client store is threaded explicitly as a list of records. -/
def process_final_hop (client_store : List StoreData) (client_address : Nat)
    (surb_id : Nat) (payload : SphinxPayload) :
    Except MixProcessingError MixProcessingResult × List StoreData :=
  match try_recover_destination_and_plaintext payload with
  | none => (.error .invalidPayload, client_store)
  | some (payload_destination, message) =>
    if client_address != payload_destination then
      (.error .nonMatchingRecipient, client_store)
    else
      (.ok .finalHop,
        client_store ++ [⟨client_address, surb_id, message⟩])

/-- `PacketProcessor::process_sphinx_packet`: a parse or sphinx
processing failure yields `SphinxProcessingError` (the `From` impl maps
every `sphinx::ProcessingError` there), a forward hop yields
`ReceivedForwardHopError`, and a final hop is handled by
`process_final_hop`. -/
def process_sphinx_packet (client_store : List StoreData)
    (raw_packet_data : SphinxUnwrapOutcome) :
    Except MixProcessingError MixProcessingResult × List StoreData :=
  match raw_packet_data with
  | .parseFailure => (.error .sphinxProcessingError, client_store)
  | .processFailure => (.error .sphinxProcessingError, client_store)
  | .forwardHop => (.error .receivedForwardHopError, client_store)
  | .finalHop client_address surb_id payload =>
    process_final_hop client_store client_address surb_id payload

end Provider

namespace Dkg

/-- `EpochState` from `nym-coconut-dkg-common` (the crate is external to
the sources; constructors follow the states exercised by the contract
code and its tests). -/
inductive EpochState where
  | waitingInitialisation
  | publicKeySubmission (resharing : Bool)
  | dealingExchange (resharing : Bool)
  | verificationKeySubmission (resharing : Bool)
  | verificationKeyValidation (resharing : Bool)
  | verificationKeyFinalization (resharing : Bool)
  | inProgress
deriving DecidableEq, Repr

/-- `TimeConfiguration`: per-state durations in seconds. -/
structure TimeConfiguration where
  public_key_submission_time_secs : Nat
  dealing_exchange_time_secs : Nat
  verification_key_submission_time_secs : Nat
  verification_key_validation_time_secs : Nat
  verification_key_finalization_time_secs : Nat
deriving DecidableEq, Repr

/-- Duration assigned to a state by the time configuration; the waiting
and in-progress states have no deadline. -/
def state_duration_secs (s : EpochState) (tc : TimeConfiguration) :
    Option Nat :=
  match s with
  | .waitingInitialisation => none
  | .publicKeySubmission _ => some tc.public_key_submission_time_secs
  | .dealingExchange _ => some tc.dealing_exchange_time_secs
  | .verificationKeySubmission _ =>
    some tc.verification_key_submission_time_secs
  | .verificationKeyValidation _ =>
    some tc.verification_key_validation_time_secs
  | .verificationKeyFinalization _ =>
    some tc.verification_key_finalization_time_secs
  | .inProgress => none

/-- `Epoch`: state, id, time configuration and deadline. -/
structure Epoch where
  state : EpochState
  epoch_id : Nat
  time_configuration : TimeConfiguration
  deadline : Option Nat
deriving DecidableEq, Repr

/-- Modelled from the spec: `Epoch::new` lives in
`nym-coconut-dkg-common`, which is not among the sources; per the
contract's own `initialising_dkg` test, it sets the given state, id and
time configuration and a deadline of the block time plus the new state's
configured duration (no deadline for states without one). -/
def Epoch.new (state : EpochState) (epoch_id : Nat)
    (time_configuration : TimeConfiguration) (block_time : Nat) : Epoch :=
  { state := state
    epoch_id := epoch_id
    time_configuration := time_configuration
    deadline := (state_duration_secs state time_configuration).map
      (fun d => block_time + d) }

/-- Contract storage relevant to `try_initiate_dkg`: the DKG admin
(`DKG_ADMIN`, `None` when unset) and `CURRENT_EPOCH`. -/
structure DkgStorage where
  dkg_admin : Option String
  current_epoch : Epoch
deriving DecidableEq, Repr

/-- `cosmwasm_std::Env` — the block time is all that is consulted. -/
structure Env where
  block_time : Nat
deriving DecidableEq, Repr

/-- `cosmwasm_std::MessageInfo` — the sender address. -/
structure MessageInfo where
  sender : String
deriving DecidableEq, Repr

/-- `ContractError` variants reachable from `try_initiate_dkg`. -/
inductive ContractError where
  | notAdmin
  | alreadyInitialised
deriving DecidableEq, Repr

/-- `cw_controllers::Admin::assert_admin`: error unless the sender equals
the stored admin. -/
def assert_admin (storage : DkgStorage) (sender : String) :
    Except ContractError Unit :=
  if storage.dkg_admin = some sender then .ok () else .error .notAdmin

/-- `try_initiate_dkg`: only the admin may run it; the current epoch
state must be `WaitingInitialisation` (else `AlreadyInitialised`); on
success save `Epoch::new(PublicKeySubmission { resharing: false }, 0,
epoch.time_configuration, env.block.time)` to `CURRENT_EPOCH`. The pair
returns the outcome together with the (possibly updated) storage. -/
def try_initiate_dkg (storage : DkgStorage) (env : Env)
    (info : MessageInfo) : Except ContractError Unit × DkgStorage :=
  match assert_admin storage info.sender with
  | .error e => (.error e, storage)
  | .ok () =>
    let epoch := storage.current_epoch
    if epoch.state ≠ EpochState.waitingInitialisation then
      (.error .alreadyInitialised, storage)
    else
      let initial_state := EpochState.publicKeySubmission false
      let initial_epoch :=
        Epoch.new initial_state 0 epoch.time_configuration env.block_time
      (.ok (), { storage with current_epoch := initial_epoch })

end Dkg

namespace Wallet

/-- `cosmwasm` coin: amount and denomination. -/
structure Coin where
  amount : Nat
  denom : String
deriving DecidableEq, Repr

/-- `MixNode` bond data; the identity key is carried as its base58
string rendering (encoded with `Client.key_to_base58`). -/
structure MixNode where
  host : String
  mix_port : Nat
  verloc_port : Nat
  http_api_port : Nat
  sphinx_key : String
  identity_key : String
  version : String
deriving DecidableEq, Repr

/-- `MixNodeCostParams`. -/
structure MixNodeCostParams where
  profit_margin_percent : Nat
  interval_operating_cost : Coin
deriving DecidableEq, Repr

/-- `SigningAlgorithm`. -/
inductive SigningAlgorithm where
  | ed25519
  | secp256k1
deriving DecidableEq, Repr

/-- `SigningAlgorithm::is_ed25519`. -/
def SigningAlgorithm.is_ed25519 : SigningAlgorithm → Bool
  | .ed25519 => true
  | .secp256k1 => false

/-- `MixnodeBondingPayload`: the node and its cost parameters. -/
structure MixnodeBondingPayload where
  mix_node : MixNode
  cost_params : MixNodeCostParams
deriving DecidableEq, Repr

/-- `ContractMessageContent`: sender, optional proxy, funds, payload. -/
structure ContractMessageContent where
  sender : String
  proxy : Option String
  funds : List Coin
  payload : MixnodeBondingPayload
deriving DecidableEq, Repr

/-- `SignableMixNodeBondingMsg` (`SignableMessage`): nonce, algorithm and
content. -/
structure SignableMixNodeBondingMsg where
  nonce : Nat
  algorithm : SigningAlgorithm
  content : ContractMessageContent
deriving DecidableEq, Repr

/-- Modelled from the spec: `construct_mixnode_bonding_sign_payload` from
`nym-mixnet-contract-common` is not among the sources; it assembles the
signable message with the Ed25519 algorithm from the nonce, sender,
optional proxy, pledge and node data. -/
def construct_mixnode_bonding_sign_payload (nonce : Nat) (sender : String)
    (proxy : Option String) (pledge : Coin) (mix_node : MixNode)
    (cost_params : MixNodeCostParams) : SignableMixNodeBondingMsg :=
  { nonce := nonce
    algorithm := .ed25519
    content :=
      { sender := sender
        proxy := proxy
        funds := [pledge]
        payload := { mix_node := mix_node, cost_params := cost_params } } }

/-- Modelled from the spec: `SignableMessage::to_plaintext` serializes the
message to bytes injectively; the plaintext is modelled as the message
itself. -/
def SignableMixNodeBondingMsg.to_plaintext (m : SignableMixNodeBondingMsg) :
    SignableMixNodeBondingMsg :=
  m

/-- An `AddressAndNonceProvider`: fixed account address, vesting contract
address and signing nonce. -/
structure WalletClient where
  cw_address : String
  vesting_contract_address : String
  signing_nonce : Nat
deriving DecidableEq, Repr

/-- `proxy`: the vesting contract address when bonding with vesting
tokens, `None` otherwise. -/
def proxy (client : WalletClient) (vesting : Bool) : Option String :=
  if vesting then some client.vesting_contract_address else none

/-- `create_mixnode_bonding_sign_payload`: read the sender address, the
proxy and the signing nonce from the client, then construct the signable
payload. -/
def create_mixnode_bonding_sign_payload (client : WalletClient)
    (mix_node : MixNode) (cost_params : MixNodeCostParams) (pledge : Coin)
    (vesting : Bool) : SignableMixNodeBondingMsg :=
  construct_mixnode_bonding_sign_payload client.signing_nonce
    client.cw_address (proxy client vesting) pledge mix_node cost_params

/-- An Ed25519 signature, symbolically: the signing key id and the signed
plaintext. `MessageSignature` byte decoding is the identity on this
representation. -/
structure MessageSignature where
  signer : Nat
  signed : SignableMixNodeBondingMsg
deriving DecidableEq, Repr

/-- `identity::PrivateKey::sign` (symbolic). -/
def identity_sign (private_key : Nat) (plaintext : SignableMixNodeBondingMsg) :
    MessageSignature :=
  { signer := private_key, signed := plaintext }

/-- `identity::PublicKey::verify` (symbolic): the signature verifies
exactly when it was produced by the key pair of this public key over this
plaintext. -/
def identity_verify (public_key : Nat)
    (plaintext : SignableMixNodeBondingMsg) (sig : MessageSignature) : Bool :=
  sig == { signer := public_key, signed := plaintext }

/-- `BackendError` variants reachable from the embedded path. -/
inductive BackendError where
  | malformedIdentityKey
  | unexpectedSigningAlgorithm
  | signatureVerificationFailure
deriving DecidableEq, Repr

/-- `verify_mixnode_bonding_sign_payload`: parse the node's identity key
from base58, recreate the plaintext with
`create_mixnode_bonding_sign_payload` on the same parameters, require the
Ed25519 algorithm, and verify the signature against the recreated
plaintext. -/
def verify_mixnode_bonding_sign_payload (client : WalletClient)
    (mix_node : MixNode) (cost_params : MixNodeCostParams) (pledge : Coin)
    (vesting : Bool) (msg_signature : MessageSignature) :
    Except BackendError Unit :=
  match Client.key_from_base58 mix_node.identity_key with
  | none => .error .malformedIdentityKey
  | some identity_key =>
    let msg :=
      create_mixnode_bonding_sign_payload client mix_node cost_params
        pledge vesting
    let plaintext := msg.to_plaintext
    if !msg.algorithm.is_ed25519 then
      .error .unexpectedSigningAlgorithm
    else if identity_verify identity_key plaintext msg_signature then
      .ok ()
    else
      .error .signatureVerificationFailure

end Wallet

namespace Handshake

/-- Group modulus for the symbolic X25519 exchange (a small prime
stand-in; only the algebra `(g^x)^y = (g^y)^x (mod p)` matters). -/
def dhModulus : Nat := 251

/-- Generator. -/
def dhGenerator : Nat := 7

/-- `g^x mod p`: the public share of the ephemeral secret `x`. -/
def gpow (x : Nat) : Nat := dhGenerator ^ x % dhModulus

/-- Diffie-Hellman shared secret from the own ephemeral secret and the
peer's public share. -/
def dh_shared (own_secret peer_share : Nat) : Nat :=
  peer_share ^ own_secret % dhModulus

/-- `SharedKeys` — the session key material. -/
structure SharedKeys where
  key : Nat
deriving DecidableEq, Repr

/-- `k = KDF(g^{xy})` (symbolic, injective). -/
def kdf (secret : Nat) : SharedKeys := ⟨secret⟩

/-- An identity key pair, abstracted to a key id used for both halves. -/
structure IdentityKeyPair where
  key_id : Nat
deriving DecidableEq, Repr

/-- An identity signature over the two concatenated public shares
(`a ‖ b`), symbolically: signer key id plus both shares. -/
structure HsSignature where
  signer : Nat
  fst_share : Nat
  snd_share : Nat
deriving DecidableEq, Repr

/-- `SIG(priv, a ‖ b)` (symbolic). -/
def sign_shares (private_key : Nat) (a b : Nat) : HsSignature :=
  { signer := private_key, fst_share := a, snd_share := b }

/-- Signature verification (symbolic): holds exactly for the signature
this key pair produces over these shares. -/
def verify_shares (public_key : Nat) (a b : Nat) (sig : HsSignature) : Bool :=
  sig == sign_shares public_key a b

/-- `AES(k, sig)` — ciphertext of a signature under the derived key
(symbolic). -/
structure EncryptedSignature where
  enc_key : Nat
  sig : HsSignature
deriving DecidableEq, Repr

/-- AES encryption (symbolic). -/
def aes_encrypt (key : Nat) (sig : HsSignature) : EncryptedSignature :=
  { enc_key := key, sig := sig }

/-- AES decryption (symbolic): recovers the signature only under the
right key; a wrong key yields garbage that no verification accepts,
modelled as `none`. -/
def aes_decrypt (key : Nat) (ct : EncryptedSignature) : Option HsSignature :=
  if ct.enc_key == key then some ct.sig else none

/-- The four wire messages of the registration handshake, as in the
protocol comment of `registration/handshake/mod.rs`. -/
inductive HandshakeMessage where
  | initial (client_identity : Nat) (client_share : Nat)
  | gatewayMaterial (gateway_share : Nat) (ct : EncryptedSignature)
  | clientMaterial (ct : EncryptedSignature)
  | done (status : Nat)
deriving DecidableEq, Repr

/-- What the client can observe on the websocket for one inbound step:
a well-typed frame, a malformed frame, or a transport error/timeout. -/
inductive WsIn where
  | frame (m : HandshakeMessage)
  | malformed
  | transportError
deriving DecidableEq, Repr

/-- `HandshakeError` outcomes of the client handshake. -/
inductive HandshakeError where
  | malformedResponse
  | invalidSignature
  | networkError
  | remoteFailure (status : Nat)
deriving DecidableEq, Repr

/-- Modelled from the spec: the body of `ClientHandshake` (modules
`client`/`state` of `registration/handshake`, not among the sources) is
reconstructed from the wire protocol comment in
`registration/handshake/mod.rs` and §4.1 of the specification. The
client sends `identity_pubkey ‖ g^x`; on `g^y ‖ AES(k, Sig_Gw(g^y ‖
g^x))` it derives `k = KDF(g^{xy})`, checks the gateway signature, sends
`AES(k, Sig_Cl(g^x ‖ g^y))`, and accepts on `DONE(0)`. The responders
are the gateway's (or an adversary's) answers to the first and third
message. Returns the outcome together with the messages the client sent. -/
def client_handshake (identity : IdentityKeyPair) (gateway_pubkey : Nat)
    (x : Nat) (respond_init : HandshakeMessage → WsIn)
    (respond_material : HandshakeMessage → WsIn) :
    Except HandshakeError SharedKeys × List HandshakeMessage :=
  let init := HandshakeMessage.initial identity.key_id (gpow x)
  match respond_init init with
  | .transportError => (.error .networkError, [init])
  | .malformed => (.error .malformedResponse, [init])
  | .frame (.gatewayMaterial gateway_share ct) =>
    let derived_key := kdf (dh_shared x gateway_share)
    match aes_decrypt derived_key.key ct with
    | none => (.error .invalidSignature, [init])
    | some gateway_sig =>
      if verify_shares gateway_pubkey gateway_share (gpow x) gateway_sig then
        let material := HandshakeMessage.clientMaterial
          (aes_encrypt derived_key.key
            (sign_shares identity.key_id (gpow x) gateway_share))
        match respond_material material with
        | .transportError => (.error .networkError, [init, material])
        | .malformed => (.error .malformedResponse, [init, material])
        | .frame (.done status) =>
          if status == 0 then (.ok derived_key, [init, material])
          else (.error (.remoteFailure status), [init, material])
        | .frame _ => (.error .malformedResponse, [init, material])
      else
        (.error .invalidSignature, [init])
  | .frame _ => (.error .malformedResponse, [init])

/-- Modelled from the spec: the honest gateway's reply to the client's
first message — its own share `g^y` and the encrypted signature over
`g^y ‖ g^x` under `KDF(g^{xy})`. -/
def gateway_reply_material (gateway : IdentityKeyPair) (y : Nat) :
    HandshakeMessage → WsIn
  | .initial _client_identity client_share =>
    let k := kdf (dh_shared y client_share)
    .frame (.gatewayMaterial (gpow y)
      (aes_encrypt k.key (sign_shares gateway.key_id (gpow y) client_share)))
  | _ => .malformed

/-- Modelled from the spec: the honest gateway's `DONE` reply to the
client's third message — status 0 exactly when the client's encrypted
signature over `g^x ‖ g^y` decrypts under the shared key and verifies
against the client identity key announced in the first message. -/
def gateway_reply_done (client_pubkey : Nat) (y : Nat) (client_share : Nat) :
    HandshakeMessage → WsIn
  | .clientMaterial ct =>
    let k := kdf (dh_shared y client_share)
    match aes_decrypt k.key ct with
    | some sig =>
      if verify_shares client_pubkey client_share (gpow y) sig then
        .frame (.done 0)
      else
        .frame (.done 1)
    | none => .frame (.done 1)
  | _ => .frame (.done 1)

end Handshake

/-! ### Helper lemmas -/

theorem key_to_base58_roundtrip (n : Nat) :
    Client.key_from_base58 (Client.key_to_base58 n) = some n := by
  simp [Client.key_from_base58, Client.key_to_base58, List.all_eq_true]

theorem start_topology_refresher_not_routable
    (p : Option Client.NymTopology) (cfg : Client.TopologyConfig)
    (h : Client.routableOpt p = false) :
    Client.start_topology_refresher p cfg =
      (.error .insufficientNetworkTopology,
        [.refreshTopology, .ensureTopologyRoutable]) := by
  cases p with
  | none => rfl
  | some t =>
    simp only [Client.routableOpt] at h
    simp [Client.start_topology_refresher, h]

theorem start_topology_refresher_routable
    (t : Client.NymTopology) (cfg : Client.TopologyConfig)
    (h : t.routable = true) :
    Client.start_topology_refresher (some t) cfg =
      (.ok (), [.refreshTopology, .ensureTopologyRoutable,
        if cfg.disable_refreshing then .markRefresherShutdownSuccess
        else .spawnTopologyRefresherTask]) := by
  cases hd : cfg.disable_refreshing <;>
    simp [Client.start_topology_refresher, h, hd]

theorem start_base_ok_char (config : Client.Config)
    (world : Client.StartBaseWorld) (mk : Client.ManagedKeys) (gw : Nat)
    (t : Client.NymTopology) (hik : world.init_keys = some mk)
    (hkey : Client.key_from_base58 config.gateway_endpoint.gateway_id = some gw)
    (hga : world.gateway_auth_ok = true)
    (hrs : world.reply_storage_load_ok = true)
    (hpt : world.provided_topology = some t) (hr : t.routable = true) :
    Client.start_base config world =
      (.ok
        { base :=
            { address :=
                { client_identity := mk.identity_public_key
                  client_encryption := mk.encryption_public_key
                  gateway := gw }
              client_input := .awaitingProducer
                { connection_command_sender := 0
                  input_sender := { capacity := 1, queue := [] } }
              client_output := .awaitingConsumer
                { received_buffer_request_sender := 0 } }
          real_traffic_config :=
            { ack_key := mk.ack_key
              self_address :=
                { client_identity := mk.identity_public_key
                  client_encryption := mk.encryption_public_key
                  gateway := gw } } },
        [.initialiseKeysAndGateway, .startGatewayClient,
          .setupPersistentReplyStorage, .refreshTopology,
          .ensureTopologyRoutable,
          (if config.topology.disable_refreshing then
            .markRefresherShutdownSuccess
          else .spawnTopologyRefresherTask)] ++
        (if config.disable_loop_cover_traffic_stream then
          [.startReceivedBufferController, .startMixTrafficController,
            .startRealTrafficController]
        else
          [.startReceivedBufferController, .startMixTrafficController,
            .startRealTrafficController, .startCoverTrafficStream])) := by
  cases hdr : config.topology.disable_refreshing <;>
    cases hcv : config.disable_loop_cover_traffic_stream <;>
      simp [Client.start_base, hik, hkey, hga, hrs, hpt, hdr, hcv,
        start_topology_refresher_routable t config.topology hr]

theorem start_base_ok_inv (config : Client.Config)
    (world : Client.StartBaseWorld) (sc : Client.StartedClient)
    (tr : List Client.StartEvent)
    (h : Client.start_base config world = (.ok sc, tr)) :
    ∃ mk gw t, world.init_keys = some mk ∧
      Client.key_from_base58 config.gateway_endpoint.gateway_id = some gw ∧
      world.gateway_auth_ok = true ∧ world.reply_storage_load_ok = true ∧
      world.provided_topology = some t ∧ t.routable = true := by
  unfold Client.start_base at h
  cases hik : world.init_keys with
  | none => rw [hik] at h; simp at h
  | some mk =>
    rw [hik] at h
    cases hkey : Client.key_from_base58 config.gateway_endpoint.gateway_id with
    | none => rw [hkey] at h; simp at h
    | some gw =>
      rw [hkey] at h
      cases hga : world.gateway_auth_ok with
      | false => rw [hga] at h; simp at h
      | true =>
        rw [hga] at h
        cases hrs : world.reply_storage_load_ok with
        | false => rw [hrs] at h; simp at h
        | true =>
          rw [hrs] at h
          cases hpt : world.provided_topology with
          | none =>
            rw [hpt,
              start_topology_refresher_not_routable none config.topology
                rfl] at h
            simp at h
          | some t =>
            cases hr : t.routable with
            | false =>
              rw [hpt,
                start_topology_refresher_not_routable (some t) config.topology
                  (by simp [Client.routableOpt, hr])] at h
              simp at h
            | true =>
              exact ⟨mk, gw, t, rfl, rfl, rfl, rfl, rfl, hr⟩

/-! ### Claim theorems -/

/-- C1: registering a consumer (`ClientOutputStatus::register_consumer`)
or a producer (`ClientInputStatus::register_producer`) is one-shot: the
first call on a status in the awaiting state returns the contained handle
and moves the status to `Connected`, and a second call on a `Connected`
status fails with `ConsumerAlreadyRegistered` (respectively
`ProducerAlreadyRegistered` — in the source, a panic with that message)
rather than succeeding. -/
theorem c1_registration_one_shot :
    (∀ ci : Client.ClientInput,
      Client.ClientInputStatus.register_producer (.awaitingProducer ci) =
        .ok (ci, .connected)) ∧
    Client.ClientInputStatus.register_producer .connected =
      .error .producerAlreadyRegistered ∧
    (∀ co : Client.ClientOutput,
      Client.ClientOutputStatus.register_consumer (.awaitingConsumer co) =
        .ok (co, .connected)) ∧
    Client.ClientOutputStatus.register_consumer .connected =
      .error .consumerAlreadyRegistered :=
  ⟨fun _ => rfl, rfl, fun _ => rfl, rfl⟩

/-- C2: `start_topology_refresher` performs exactly one synchronous
topology refresh (it is the first recorded step) before returning, and if
the resulting topology is not routable it returns
`InsufficientNetworkTopology` without starting the refresher task — and
`start_base`, whose earlier steps all succeeded, then fails with that
same error. -/
theorem c2_initial_refresh_and_routability :
    ∀ (provided : Option Client.NymTopology) (cfg : Client.TopologyConfig)
      (config : Client.Config) (world : Client.StartBaseWorld),
      (Client.start_topology_refresher provided cfg).2.count
        Client.StartEvent.refreshTopology = 1 ∧
      (Client.start_topology_refresher provided cfg).2.head? =
        some Client.StartEvent.refreshTopology ∧
      (Client.routableOpt provided = false →
        (Client.start_topology_refresher provided cfg).1 =
          .error .insufficientNetworkTopology ∧
        Client.StartEvent.spawnTopologyRefresherTask ∉
          (Client.start_topology_refresher provided cfg).2) ∧
      (world.init_keys.isSome = true →
        (Client.key_from_base58 config.gateway_endpoint.gateway_id).isSome =
          true →
        world.gateway_auth_ok = true →
        world.reply_storage_load_ok = true →
        Client.routableOpt world.provided_topology = false →
        (Client.start_base config world).1 =
          .error .insufficientNetworkTopology) := by
  intro provided cfg config world
  refine ⟨?_, ?_, ?_, ?_⟩
  · rcases provided with _ | t
    · rfl
    · cases hr : t.routable <;> cases hd : cfg.disable_refreshing <;>
        simp [Client.start_topology_refresher, hr, hd]
  · rcases provided with _ | t
    · rfl
    · cases hr : t.routable <;> cases hd : cfg.disable_refreshing <;>
        simp [Client.start_topology_refresher, hr, hd]
  · intro hnr
    rw [start_topology_refresher_not_routable provided cfg hnr]
    exact ⟨rfl, by decide⟩
  · intro hik hkey hga hrs hnr
    rcases Option.isSome_iff_exists.mp hik with ⟨mk, hmk⟩
    rcases Option.isSome_iff_exists.mp hkey with ⟨gw, hgw⟩
    simp [Client.start_base, hmk, hgw, hga, hrs,
      start_topology_refresher_not_routable world.provided_topology
        config.topology hnr]

/-- C2 witness: a concrete world whose provider returns a topology with
an empty mix layer makes startup fail with
`InsufficientNetworkTopology`. -/
theorem c2_initial_refresh_and_routability_witness :
    (Client.start_topology_refresher
        (some ⟨0, 1, 1, 1⟩) ⟨false⟩).1 =
      .error .insufficientNetworkTopology ∧
    Client.StartEvent.spawnTopologyRefresherTask ∉
      (Client.start_topology_refresher (some ⟨0, 1, 1, 1⟩) ⟨false⟩).2 ∧
    (Client.start_base
        { gateway_endpoint :=
            { gateway_id := Client.key_to_base58 2, gateway_listener := "ws" }
          topology := { disable_refreshing := false }
          disable_loop_cover_traffic_stream := false }
        { init_keys := some
            { identity_public_key := 1, encryption_public_key := 2
              ack_key := 3, gateway_shared_key := none }
          gateway_auth_ok := true
          reply_storage_load_ok := true
          provided_topology := some ⟨0, 1, 1, 1⟩ }).1 =
      .error .insufficientNetworkTopology :=
  have h := c2_initial_refresh_and_routability (some ⟨0, 1, 1, 1⟩) ⟨false⟩
    { gateway_endpoint :=
        { gateway_id := Client.key_to_base58 2, gateway_listener := "ws" }
      topology := { disable_refreshing := false }
      disable_loop_cover_traffic_stream := false }
    { init_keys := some
        { identity_public_key := 1, encryption_public_key := 2
          ack_key := 3, gateway_shared_key := none }
      gateway_auth_ok := true
      reply_storage_load_ok := true
      provided_topology := some ⟨0, 1, 1, 1⟩ }
  ⟨(h.2.2.1 rfl).1, (h.2.2.1 rfl).2,
    h.2.2.2 rfl (by rfl) rfl rfl rfl⟩

/-- C7: when `disable_refreshing` is set, `start_topology_refresher`
(with a routable snapshot) does not spawn the refresher task and marks
the shutdown handle as success; when it is not set, the refresher task is
spawned. -/
theorem c7_disable_refreshing :
    ∀ (t : Client.NymTopology) (cfg : Client.TopologyConfig),
      t.routable = true →
      (cfg.disable_refreshing = true →
        Client.start_topology_refresher (some t) cfg =
          (.ok (), [.refreshTopology, .ensureTopologyRoutable,
            .markRefresherShutdownSuccess])) ∧
      (cfg.disable_refreshing = false →
        Client.start_topology_refresher (some t) cfg =
          (.ok (), [.refreshTopology, .ensureTopologyRoutable,
            .spawnTopologyRefresherTask])) := by
  intro t cfg hr
  constructor <;> intro hd <;>
    rw [start_topology_refresher_routable t cfg hr, hd] <;> rfl

/-- C7 witness: concrete routable topology, both flag values. -/
theorem c7_disable_refreshing_witness :
    Client.start_topology_refresher (some ⟨1, 1, 1, 1⟩) ⟨true⟩ =
      (.ok (), [.refreshTopology, .ensureTopologyRoutable,
        .markRefresherShutdownSuccess]) ∧
    Client.start_topology_refresher (some ⟨1, 1, 1, 1⟩) ⟨false⟩ =
      (.ok (), [.refreshTopology, .ensureTopologyRoutable,
        .spawnTopologyRefresherTask]) :=
  ⟨(c7_disable_refreshing ⟨1, 1, 1, 1⟩ ⟨true⟩ rfl).1 rfl,
    (c7_disable_refreshing ⟨1, 1, 1, 1⟩ ⟨false⟩ rfl).2 rfl⟩

/-- C3 counterexample: on a concrete successful startup, the
specification's claimed component order (topology accessor/refresher
before reply storage) does not hold of the trace `start_base` produces —
the code sets up reply storage before starting the topology refresher. -/
theorem c3_claimed_order_counterexample :
    (Client.start_base
        { gateway_endpoint :=
            { gateway_id := Client.key_to_base58 2, gateway_listener := "ws" }
          topology := { disable_refreshing := false }
          disable_loop_cover_traffic_stream := false }
        { init_keys := some
            { identity_public_key := 1, encryption_public_key := 2
              ack_key := 3, gateway_shared_key := none }
          gateway_auth_ok := true
          reply_storage_load_ok := true
          provided_topology := some ⟨1, 1, 1, 1⟩ }).1.isOk = true ∧
    Client.spec_claimed_start_order
      (Client.start_base
        { gateway_endpoint :=
            { gateway_id := Client.key_to_base58 2, gateway_listener := "ws" }
          topology := { disable_refreshing := false }
          disable_loop_cover_traffic_stream := false }
        { init_keys := some
            { identity_public_key := 1, encryption_public_key := 2
              ack_key := 3, gateway_shared_key := none }
          gateway_auth_ok := true
          reply_storage_load_ok := true
          provided_topology := some ⟨1, 1, 1, 1⟩ }).2 = false :=
  ⟨rfl, rfl⟩

/-- C3 (amended): `start_base` starts the client components in the order
gateway session, then reply storage, then the topology
accessor/refresher, then the received-buffer controller, the mix-traffic
controller, the real-traffic controller, and (when enabled) the
cover-traffic stream last; in particular reply storage is brought up
before the topology refresher. -/
theorem c3_start_base_component_order :
    ∀ (config : Client.Config) (world : Client.StartBaseWorld)
      (sc : Client.StartedClient) (tr : List Client.StartEvent),
      Client.start_base config world = (.ok sc, tr) →
      Client.actual_start_order tr = true ∧
      (config.disable_loop_cover_traffic_stream = false →
        Client.eventOrderOk tr .startRealTrafficController
          .startCoverTrafficStream = true) := by
  intro config world sc tr h
  obtain ⟨mk, gw, t, hik, hkey, hga, hrs, hpt, hr⟩ :=
    start_base_ok_inv config world sc tr h
  rw [start_base_ok_char config world mk gw t hik hkey hga hrs hpt hr] at h
  injection h with h1 h2
  subst h2
  cases hdr : config.topology.disable_refreshing <;>
    cases hcv : config.disable_loop_cover_traffic_stream <;>
      simp only [hdr, hcv, if_true, if_false, Bool.false_eq_true,
        reduceIte] <;>
      first
        | exact ⟨by decide, fun _ => by decide⟩
        | exact ⟨by decide, fun hc => absurd hc (by decide)⟩

/-- C3 witness: the amended order on a concrete successful startup with
cover traffic enabled. -/
theorem c3_start_base_component_order_witness :
    Client.actual_start_order
      [.initialiseKeysAndGateway, .startGatewayClient,
        .setupPersistentReplyStorage, .refreshTopology,
        .ensureTopologyRoutable, .spawnTopologyRefresherTask,
        .startReceivedBufferController, .startMixTrafficController,
        .startRealTrafficController, .startCoverTrafficStream] = true ∧
    Client.eventOrderOk
      [.initialiseKeysAndGateway, .startGatewayClient,
        .setupPersistentReplyStorage, .refreshTopology,
        .ensureTopologyRoutable, .spawnTopologyRefresherTask,
        .startReceivedBufferController, .startMixTrafficController,
        .startRealTrafficController, .startCoverTrafficStream]
      .startRealTrafficController .startCoverTrafficStream = true :=
  have h := c3_start_base_component_order
    { gateway_endpoint :=
        { gateway_id := Client.key_to_base58 2, gateway_listener := "ws" }
      topology := { disable_refreshing := false }
      disable_loop_cover_traffic_stream := false }
    { init_keys := some
        { identity_public_key := 1, encryption_public_key := 2
          ack_key := 3, gateway_shared_key := none }
      gateway_auth_ok := true
      reply_storage_load_ok := true
      provided_topology := some ⟨1, 1, 1, 1⟩ }
    { base :=
        { address :=
            { client_identity := 1, client_encryption := 2, gateway := 2 }
          client_input := .awaitingProducer
            { connection_command_sender := 0
              input_sender := { capacity := 1, queue := [] } }
          client_output := .awaitingConsumer
            { received_buffer_request_sender := 0 } }
      real_traffic_config :=
        { ack_key := 3
          self_address :=
            { client_identity := 1, client_encryption := 2, gateway := 2 } } }
    [.initialiseKeysAndGateway, .startGatewayClient,
      .setupPersistentReplyStorage, .refreshTopology,
      .ensureTopologyRoutable, .spawnTopologyRefresherTask,
      .startReceivedBufferController, .startMixTrafficController,
      .startRealTrafficController, .startCoverTrafficStream]
    (by rfl)
  ⟨h.1, h.2 rfl⟩

/-- C5: the client's own address computed by `mix_address` and returned
as `BaseClient.address` is exactly the `Recipient` triple of the managed
identity public key, the managed encryption public key, and the gateway
identity parsed from the configured `gateway_id`; it is the same address
handed to the real-traffic controller as destination for outgoing
traffic, and its encryption component equals the managed encryption
public key. -/
theorem c5_mix_address_recipient :
    ∀ (config : Client.Config) (world : Client.StartBaseWorld)
      (sc : Client.StartedClient) (tr : List Client.StartEvent)
      (mk : Client.ManagedKeys),
      world.init_keys = some mk →
      Client.start_base config world = (.ok sc, tr) →
      ∃ gw,
        Client.key_from_base58 config.gateway_endpoint.gateway_id =
          some gw ∧
        sc.base.address =
          { client_identity := mk.identity_public_key
            client_encryption := mk.encryption_public_key
            gateway := gw } ∧
        Client.mix_address mk config.gateway_endpoint =
          some sc.base.address ∧
        sc.real_traffic_config.self_address = sc.base.address ∧
        sc.base.address.client_encryption = mk.encryption_public_key := by
  intro config world sc tr mk hmk h
  obtain ⟨mk', gw, t, hik, hkey, hga, hrs, hpt, hr⟩ :=
    start_base_ok_inv config world sc tr h
  have hmk' : mk' = mk := by
    rw [hmk] at hik
    exact (Option.some.injEq _ _ ▸ hik).symm
  subst hmk'
  rw [start_base_ok_char config world mk' gw t hik hkey hga hrs hpt hr] at h
  injection h with h1 h2
  have hsc := (Except.ok.injEq _ _ ▸ h1)
  subst hsc
  exact ⟨gw, hkey, rfl, by simp [Client.mix_address, hkey], rfl, rfl⟩

/-- C5 witness: the address on a concrete successful startup. -/
theorem c5_mix_address_recipient_witness :
    ∃ gw,
      Client.key_from_base58 (Client.key_to_base58 2) = some gw ∧
      ({ client_identity := 1, client_encryption := 2, gateway := 2 } :
          Client.Recipient) =
        { client_identity := 1, client_encryption := 2, gateway := gw } ∧
      Client.mix_address
          { identity_public_key := 1, encryption_public_key := 2
            ack_key := 3, gateway_shared_key := none }
          { gateway_id := Client.key_to_base58 2, gateway_listener := "ws" } =
        some { client_identity := 1, client_encryption := 2, gateway := 2 } ∧
      ({ client_identity := 1, client_encryption := 2, gateway := 2 } :
          Client.Recipient) =
        { client_identity := 1, client_encryption := 2, gateway := 2 } ∧
      ({ client_identity := 1, client_encryption := 2, gateway := 2 } :
          Client.Recipient).client_encryption = 2 :=
  c5_mix_address_recipient
    { gateway_endpoint :=
        { gateway_id := Client.key_to_base58 2, gateway_listener := "ws" }
      topology := { disable_refreshing := false }
      disable_loop_cover_traffic_stream := false }
    { init_keys := some
        { identity_public_key := 1, encryption_public_key := 2
          ack_key := 3, gateway_shared_key := none }
      gateway_auth_ok := true
      reply_storage_load_ok := true
      provided_topology := some ⟨1, 1, 1, 1⟩ }
    { base :=
        { address :=
            { client_identity := 1, client_encryption := 2, gateway := 2 }
          client_input := .awaitingProducer
            { connection_command_sender := 0
              input_sender := { capacity := 1, queue := [] } }
          client_output := .awaitingConsumer
            { received_buffer_request_sender := 0 } }
      real_traffic_config :=
        { ack_key := 3
          self_address :=
            { client_identity := 1, client_encryption := 2, gateway := 2 } } }
    [.initialiseKeysAndGateway, .startGatewayClient,
      .setupPersistentReplyStorage, .refreshTopology,
      .ensureTopologyRoutable, .spawnTopologyRefresherTask,
      .startReceivedBufferController, .startMixTrafficController,
      .startRealTrafficController, .startCoverTrafficStream]
    { identity_public_key := 1, encryption_public_key := 2
      ack_key := 3, gateway_shared_key := none }
    rfl (by rfl)

/-- C6: the input channel wired between `ClientInput::send` and the
real-traffic controller's input receiver is bounded with capacity exactly
1, and a send invoked while one message is already queued does not
complete until the receiver takes the queued message. -/
theorem c6_input_channel_capacity_one :
    ∀ (config : Client.Config) (world : Client.StartBaseWorld)
      (sc : Client.StartedClient) (tr : List Client.StartEvent),
      (Client.start_base config world = (.ok sc, tr) →
        ∃ ci, sc.base.client_input = .awaitingProducer ci ∧
          ci.input_sender.capacity = 1 ∧ ci.input_sender.queue = []) ∧
      (∀ (ci : Client.ClientInput) (m0 m1 : Nat),
        ci.input_sender.capacity = 1 → ci.input_sender.queue = [m0] →
        Client.ClientInput.send ci m1 = .wouldBlock ∧
        ∀ m ch', ci.input_sender.recv = some (m, ch') →
          m = m0 ∧
          Client.InputChannel.send ch' m1 =
            .completed { capacity := ci.input_sender.capacity,
                         queue := [m1] }) := by
  intro config world sc tr
  constructor
  · intro h
    obtain ⟨mk, gw, t, hik, hkey, hga, hrs, hpt, hr⟩ :=
      start_base_ok_inv config world sc tr h
    rw [start_base_ok_char config world mk gw t hik hkey hga hrs hpt hr] at h
    injection h with h1 h2
    have hsc := (Except.ok.injEq _ _ ▸ h1)
    subst hsc
    exact ⟨_, rfl, rfl, rfl⟩
  · intro ci m0 m1 hcap hq
    constructor
    · simp [Client.ClientInput.send, Client.InputChannel.send, hcap, hq]
    · intro m ch' hrecv
      rw [Client.InputChannel.recv, hq] at hrecv
      injection hrecv with hrecv
      injection hrecv with hm hch
      subst hm
      refine ⟨rfl, ?_⟩
      rw [← hch]
      simp [Client.InputChannel.send, hcap]

/-- C6 witness: concrete channel of capacity 1 holding one message. -/
theorem c6_input_channel_capacity_one_witness :
    (∃ ci, (Client.ClientInputStatus.awaitingProducer
        { connection_command_sender := 0
          input_sender := { capacity := 1, queue := [] } }) =
          .awaitingProducer ci ∧
        ci.input_sender.capacity = 1 ∧ ci.input_sender.queue = []) ∧
    Client.ClientInput.send
        { connection_command_sender := 0
          input_sender := { capacity := 1, queue := [5] } } 6 =
      .wouldBlock ∧
    Client.InputChannel.send { capacity := 1, queue := [] } 6 =
      .completed { capacity := 1, queue := [6] } :=
  have h := c6_input_channel_capacity_one
    { gateway_endpoint :=
        { gateway_id := Client.key_to_base58 2, gateway_listener := "ws" }
      topology := { disable_refreshing := false }
      disable_loop_cover_traffic_stream := false }
    { init_keys := some
        { identity_public_key := 1, encryption_public_key := 2
          ack_key := 3, gateway_shared_key := none }
      gateway_auth_ok := true
      reply_storage_load_ok := true
      provided_topology := some ⟨1, 1, 1, 1⟩ }
    { base :=
        { address :=
            { client_identity := 1, client_encryption := 2, gateway := 2 }
          client_input := .awaitingProducer
            { connection_command_sender := 0
              input_sender := { capacity := 1, queue := [] } }
          client_output := .awaitingConsumer
            { received_buffer_request_sender := 0 } }
      real_traffic_config :=
        { ack_key := 3
          self_address :=
            { client_identity := 1, client_encryption := 2, gateway := 2 } } }
    [.initialiseKeysAndGateway, .startGatewayClient,
      .setupPersistentReplyStorage, .refreshTopology,
      .ensureTopologyRoutable, .spawnTopologyRefresherTask,
      .startReceivedBufferController, .startMixTrafficController,
      .startRealTrafficController, .startCoverTrafficStream]
  have hsend := h.2
    { connection_command_sender := 0
      input_sender := { capacity := 1, queue := [5] } } 5 6 rfl rfl
  ⟨h.1 (by rfl),
    hsend.1,
    ((hsend.2 5 { capacity := 1, queue := [] } rfl).2)⟩

/-- C8: `process_sphinx_packet` stores data in the client store only when
the packet processes to a final hop whose recovered payload destination
equals the packet's client address; a forward hop yields
`ReceivedForwardHopError`, an unparseable payload `InvalidPayload`, a
destination mismatch `NonMatchingRecipient`, a failed sphinx unwrap (or
parse) `SphinxProcessingError`, and nothing is stored in any error
case. -/
theorem c8_process_sphinx_packet_storage :
    ∀ (store : List Provider.StoreData) (raw : Provider.SphinxUnwrapOutcome),
      (raw = .forwardHop →
        Provider.process_sphinx_packet store raw =
          (.error .receivedForwardHopError, store)) ∧
      ((raw = .parseFailure ∨ raw = .processFailure) →
        Provider.process_sphinx_packet store raw =
          (.error .sphinxProcessingError, store)) ∧
      (∀ a s p, raw = .finalHop a s p →
        (p.recoverable = none →
          Provider.process_sphinx_packet store raw =
            (.error .invalidPayload, store)) ∧
        (∀ d m, p.recoverable = some (d, m) →
          (a ≠ d →
            Provider.process_sphinx_packet store raw =
              (.error .nonMatchingRecipient, store)) ∧
          (a = d →
            Provider.process_sphinx_packet store raw =
              (.ok .finalHop, store ++ [⟨a, s, m⟩])))) ∧
      (∀ e store', Provider.process_sphinx_packet store raw =
          (.error e, store') → store' = store) := by
  intro store raw
  refine ⟨?_, ?_, ?_, ?_⟩
  · rintro rfl; rfl
  · rintro (rfl | rfl) <;> rfl
  · rintro a s p rfl
    refine ⟨?_, ?_⟩
    · intro hp
      simp [Provider.process_sphinx_packet, Provider.process_final_hop,
        Provider.try_recover_destination_and_plaintext, hp]
    · rintro d m hp
      refine ⟨?_, ?_⟩
      · intro hne
        simp [Provider.process_sphinx_packet, Provider.process_final_hop,
          Provider.try_recover_destination_and_plaintext, hp, hne]
      · rintro rfl
        simp [Provider.process_sphinx_packet, Provider.process_final_hop,
          Provider.try_recover_destination_and_plaintext, hp]
  · intro e store' h
    cases raw with
    | parseFailure => injection h with _ h2; exact h2.symm
    | processFailure => injection h with _ h2; exact h2.symm
    | forwardHop => injection h with _ h2; exact h2.symm
    | finalHop a s p =>
      rcases hp : p.recoverable with _ | ⟨d, m⟩
      · simp [Provider.process_sphinx_packet, Provider.process_final_hop,
          Provider.try_recover_destination_and_plaintext, hp] at h
        exact h.2.symm
      · by_cases had : a = d
        · subst had
          simp [Provider.process_sphinx_packet, Provider.process_final_hop,
            Provider.try_recover_destination_and_plaintext, hp] at h
        · simp [Provider.process_sphinx_packet, Provider.process_final_hop,
            Provider.try_recover_destination_and_plaintext, hp, had] at h
          exact h.2.symm

/-- C8 witness: concrete packets exercising the storing case and three
error cases, starting from an empty client store. -/
theorem c8_process_sphinx_packet_storage_witness :
    Provider.process_sphinx_packet [] .forwardHop =
      (.error .receivedForwardHopError, []) ∧
    Provider.process_sphinx_packet [] .parseFailure =
      (.error .sphinxProcessingError, []) ∧
    Provider.process_sphinx_packet [] (.finalHop 1 7 ⟨some (1, [2, 3])⟩) =
      (.ok .finalHop, [⟨1, 7, [2, 3]⟩]) ∧
    Provider.process_sphinx_packet [] (.finalHop 1 7 ⟨some (2, [2, 3])⟩) =
      (.error .nonMatchingRecipient, []) :=
  have h1 := c8_process_sphinx_packet_storage [] .forwardHop
  have h2 := c8_process_sphinx_packet_storage [] .parseFailure
  have h3 := c8_process_sphinx_packet_storage []
    (.finalHop 1 7 ⟨some (1, [2, 3])⟩)
  have h4 := c8_process_sphinx_packet_storage []
    (.finalHop 1 7 ⟨some (2, [2, 3])⟩)
  ⟨h1.1 rfl, h2.2.1 (Or.inl rfl),
    ((h3.2.2.1 1 7 ⟨some (1, [2, 3])⟩ rfl).2 1 [2, 3] rfl).2 rfl,
    ((h4.2.2.1 1 7 ⟨some (2, [2, 3])⟩ rfl).2 2 [2, 3] rfl).1 (by decide)⟩

/-- C9: `try_initiate_dkg` succeeds only when the sender is the DKG admin
and the epoch state is `WaitingInitialisation`; on success it saves a
fresh epoch with state `PublicKeySubmission { resharing: false }` and
epoch id 0, keeping the stored time configuration; a non-admin sender or
a wrong state returns an error (`AlreadyInitialised` for a repeated
call), leaving `CURRENT_EPOCH` unchanged. -/
theorem c9_try_initiate_dkg_guard :
    ∀ (st : Dkg.DkgStorage) (env env2 : Dkg.Env) (info : Dkg.MessageInfo),
      (st.dkg_admin = some info.sender →
        st.current_epoch.state = .waitingInitialisation →
        Dkg.try_initiate_dkg st env info =
          (.ok (), { st with current_epoch :=
            { state := .publicKeySubmission false
              epoch_id := 0
              time_configuration := st.current_epoch.time_configuration
              deadline := some (env.block_time +
                st.current_epoch.time_configuration.public_key_submission_time_secs) } })) ∧
      (st.dkg_admin ≠ some info.sender →
        Dkg.try_initiate_dkg st env info = (.error .notAdmin, st)) ∧
      (st.dkg_admin = some info.sender →
        st.current_epoch.state ≠ .waitingInitialisation →
        Dkg.try_initiate_dkg st env info =
          (.error .alreadyInitialised, st)) ∧
      ((Dkg.try_initiate_dkg st env info).1 = .ok () →
        Dkg.try_initiate_dkg (Dkg.try_initiate_dkg st env info).2 env2 info =
          (.error .alreadyInitialised,
            (Dkg.try_initiate_dkg st env info).2)) := by
  intro st env env2 info
  refine ⟨?_, ?_, ?_, ?_⟩
  · intro ha hs
    simp [Dkg.try_initiate_dkg, Dkg.assert_admin, ha, hs, Dkg.Epoch.new,
      Dkg.state_duration_secs]
  · intro ha
    simp [Dkg.try_initiate_dkg, Dkg.assert_admin, ha]
  · intro ha hs
    simp [Dkg.try_initiate_dkg, Dkg.assert_admin, ha, hs]
  · intro hok
    by_cases ha : st.dkg_admin = some info.sender
    · by_cases hs : st.current_epoch.state = .waitingInitialisation
      · simp [Dkg.try_initiate_dkg, Dkg.assert_admin, ha, hs, Dkg.Epoch.new,
          Dkg.state_duration_secs]
      · exfalso
        revert hok
        simp [Dkg.try_initiate_dkg, Dkg.assert_admin, ha, hs]
    · exfalso
      revert hok
      simp [Dkg.try_initiate_dkg, Dkg.assert_admin, ha]

/-- C9 witness: a concrete admin-initiated call succeeds with the fresh
epoch, a non-admin call and a repeated call are rejected with the storage
unchanged. -/
theorem c9_try_initiate_dkg_guard_witness :
    Dkg.try_initiate_dkg
        { dkg_admin := some "admin"
          current_epoch :=
            { state := .waitingInitialisation, epoch_id := 5
              time_configuration := ⟨10, 20, 30, 40, 50⟩
              deadline := none } }
        ⟨100⟩ ⟨"admin"⟩ =
      (.ok (),
        { dkg_admin := some "admin"
          current_epoch :=
            { state := .publicKeySubmission false, epoch_id := 0
              time_configuration := ⟨10, 20, 30, 40, 50⟩
              deadline := some 110 } }) ∧
    Dkg.try_initiate_dkg
        { dkg_admin := some "admin"
          current_epoch :=
            { state := .waitingInitialisation, epoch_id := 5
              time_configuration := ⟨10, 20, 30, 40, 50⟩
              deadline := none } }
        ⟨100⟩ ⟨"mallory"⟩ =
      (.error .notAdmin,
        { dkg_admin := some "admin"
          current_epoch :=
            { state := .waitingInitialisation, epoch_id := 5
              time_configuration := ⟨10, 20, 30, 40, 50⟩
              deadline := none } }) ∧
    Dkg.try_initiate_dkg
        (Dkg.try_initiate_dkg
          { dkg_admin := some "admin"
            current_epoch :=
              { state := .waitingInitialisation, epoch_id := 5
                time_configuration := ⟨10, 20, 30, 40, 50⟩
                deadline := none } }
          ⟨100⟩ ⟨"admin"⟩).2 ⟨200⟩ ⟨"admin"⟩ =
      (.error .alreadyInitialised,
        (Dkg.try_initiate_dkg
          { dkg_admin := some "admin"
            current_epoch :=
              { state := .waitingInitialisation, epoch_id := 5
                time_configuration := ⟨10, 20, 30, 40, 50⟩
                deadline := none } }
          ⟨100⟩ ⟨"admin"⟩).2) :=
  have h := c9_try_initiate_dkg_guard
    { dkg_admin := some "admin"
      current_epoch :=
        { state := .waitingInitialisation, epoch_id := 5
          time_configuration := ⟨10, 20, 30, 40, 50⟩
          deadline := none } }
    ⟨100⟩ ⟨200⟩ ⟨"admin"⟩
  have h2 := c9_try_initiate_dkg_guard
    { dkg_admin := some "admin"
      current_epoch :=
        { state := .waitingInitialisation, epoch_id := 5
          time_configuration := ⟨10, 20, 30, 40, 50⟩
          deadline := none } }
    ⟨100⟩ ⟨200⟩ ⟨"mallory"⟩
  ⟨h.1 rfl rfl, h2.2.1 (by simp), h.2.2.2 (by rfl)⟩

/-- C10: a signature produced with the mixnode's identity private key
over the plaintext of the payload returned by
`create_mixnode_bonding_sign_payload` makes
`verify_mixnode_bonding_sign_payload` with the same parameters return
`Ok`; verification of the same signature with the opposite vesting flag
returns an error. -/
theorem c10_bonding_signature_roundtrip :
    ∀ (client : Wallet.WalletClient) (mix_node : Wallet.MixNode)
      (cost_params : Wallet.MixNodeCostParams) (pledge : Wallet.Coin)
      (vesting : Bool) (sk : Nat),
      mix_node.identity_key = Client.key_to_base58 sk →
      Wallet.verify_mixnode_bonding_sign_payload client mix_node
          cost_params pledge vesting
          (Wallet.identity_sign sk
            (Wallet.create_mixnode_bonding_sign_payload client mix_node
              cost_params pledge vesting).to_plaintext) = .ok () ∧
      Wallet.verify_mixnode_bonding_sign_payload client mix_node
          cost_params pledge (!vesting)
          (Wallet.identity_sign sk
            (Wallet.create_mixnode_bonding_sign_payload client mix_node
              cost_params pledge vesting).to_plaintext) =
        .error .signatureVerificationFailure := by
  intro client mix_node cost_params pledge vesting sk hkey
  constructor
  · simp [Wallet.verify_mixnode_bonding_sign_payload, hkey,
      key_to_base58_roundtrip, Wallet.SignableMixNodeBondingMsg.to_plaintext,
      Wallet.create_mixnode_bonding_sign_payload,
      Wallet.construct_mixnode_bonding_sign_payload,
      Wallet.SigningAlgorithm.is_ed25519, Wallet.identity_verify,
      Wallet.identity_sign]
  · cases vesting <;>
      simp [Wallet.verify_mixnode_bonding_sign_payload, hkey,
        key_to_base58_roundtrip,
        Wallet.SignableMixNodeBondingMsg.to_plaintext,
        Wallet.create_mixnode_bonding_sign_payload,
        Wallet.construct_mixnode_bonding_sign_payload,
        Wallet.SigningAlgorithm.is_ed25519, Wallet.identity_verify,
        Wallet.identity_sign, Wallet.proxy]

/-- C10 witness: concrete node, client and key. -/
theorem c10_bonding_signature_roundtrip_witness :
    Wallet.verify_mixnode_bonding_sign_payload
        ⟨"n1sender", "n1vesting", 42⟩
        { host := "1.2.3.4", mix_port := 1234, verloc_port := 2345
          http_api_port := 3456, sphinx_key := "sphinx"
          identity_key := Client.key_to_base58 5, version := "v1.2.3" }
        ⟨42, ⟨1111111, "unym"⟩⟩ ⟨10000000000, "unym"⟩ false
        (Wallet.identity_sign 5
          (Wallet.create_mixnode_bonding_sign_payload
            ⟨"n1sender", "n1vesting", 42⟩
            { host := "1.2.3.4", mix_port := 1234, verloc_port := 2345
              http_api_port := 3456, sphinx_key := "sphinx"
              identity_key := Client.key_to_base58 5, version := "v1.2.3" }
            ⟨42, ⟨1111111, "unym"⟩⟩ ⟨10000000000, "unym"⟩
            false).to_plaintext) = .ok () ∧
    Wallet.verify_mixnode_bonding_sign_payload
        ⟨"n1sender", "n1vesting", 42⟩
        { host := "1.2.3.4", mix_port := 1234, verloc_port := 2345
          http_api_port := 3456, sphinx_key := "sphinx"
          identity_key := Client.key_to_base58 5, version := "v1.2.3" }
        ⟨42, ⟨1111111, "unym"⟩⟩ ⟨10000000000, "unym"⟩ (!false)
        (Wallet.identity_sign 5
          (Wallet.create_mixnode_bonding_sign_payload
            ⟨"n1sender", "n1vesting", 42⟩
            { host := "1.2.3.4", mix_port := 1234, verloc_port := 2345
              http_api_port := 3456, sphinx_key := "sphinx"
              identity_key := Client.key_to_base58 5, version := "v1.2.3" }
            ⟨42, ⟨1111111, "unym"⟩⟩ ⟨10000000000, "unym"⟩
            false).to_plaintext) =
      .error .signatureVerificationFailure :=
  c10_bonding_signature_roundtrip ⟨"n1sender", "n1vesting", 42⟩
    { host := "1.2.3.4", mix_port := 1234, verloc_port := 2345
      http_api_port := 3456, sphinx_key := "sphinx"
      identity_key := Client.key_to_base58 5, version := "v1.2.3" }
    ⟨42, ⟨1111111, "unym"⟩⟩ ⟨10000000000, "unym"⟩ false 5 rfl

theorem dh_shared_gpow_comm (x y : Nat) :
    Handshake.dh_shared x (Handshake.gpow y) =
      Handshake.dh_shared y (Handshake.gpow x) := by
  unfold Handshake.dh_shared Handshake.gpow
  conv_lhs => rw [← Nat.pow_mod]
  conv_rhs => rw [← Nat.pow_mod]
  rw [← pow_mul, ← pow_mul, Nat.mul_comm]

/-- C4: `client_handshake` performs exactly the four-message wire
protocol — it sends `identity_pubkey ‖ g^x`, receives `g^y ‖ AES(k,
Sig_Gw(g^y ‖ g^x))` with `k = KDF(g^{xy})`, sends `AES(k, Sig_Cl(g^x ‖
g^y))` and receives `DONE(status)` — returning the derived `SharedKeys`
(identical on both sides) on an honest run, and a `HandshakeError` on a
nonzero `DONE` status, a malformed frame, a transport error/timeout, or
a signature not produced by the gateway's key. -/
theorem c4_client_handshake_protocol :
    ∀ (cl gw : Handshake.IdentityKeyPair) (x y : Nat)
      (respond_material : Handshake.HandshakeMessage → Handshake.WsIn),
      Handshake.client_handshake cl gw.key_id x
          (Handshake.gateway_reply_material gw y)
          (Handshake.gateway_reply_done cl.key_id y (Handshake.gpow x)) =
        (.ok (Handshake.kdf (Handshake.dh_shared x (Handshake.gpow y))),
          [.initial cl.key_id (Handshake.gpow x),
            .clientMaterial
              (Handshake.aes_encrypt
                (Handshake.kdf
                  (Handshake.dh_shared x (Handshake.gpow y))).key
                (Handshake.sign_shares cl.key_id (Handshake.gpow x)
                  (Handshake.gpow y)))]) ∧
      Handshake.dh_shared x (Handshake.gpow y) =
        Handshake.dh_shared y (Handshake.gpow x) ∧
      (∀ status : Nat, status ≠ 0 →
        (Handshake.client_handshake cl gw.key_id x
            (Handshake.gateway_reply_material gw y)
            (fun _ => .frame (.done status))).1 =
          .error (.remoteFailure status)) ∧
      (Handshake.client_handshake cl gw.key_id x (fun _ => .malformed)
          respond_material).1 = .error .malformedResponse ∧
      (Handshake.client_handshake cl gw.key_id x (fun _ => .transportError)
          respond_material).1 = .error .networkError ∧
      (∀ w, w ≠ gw.key_id →
        (Handshake.client_handshake cl gw.key_id x
            (Handshake.gateway_reply_material ⟨w⟩ y)
            respond_material).1 = .error .invalidSignature) := by
  intro cl gw x y respond_material
  have hk : Handshake.dh_shared y (Handshake.gpow x) =
      Handshake.dh_shared x (Handshake.gpow y) :=
    (dh_shared_gpow_comm x y).symm
  refine ⟨?_, (dh_shared_gpow_comm x y), ?_, rfl, rfl, ?_⟩
  · simp [Handshake.client_handshake, Handshake.gateway_reply_material,
      Handshake.gateway_reply_done, Handshake.aes_encrypt,
      Handshake.aes_decrypt, Handshake.verify_shares,
      Handshake.sign_shares, Handshake.kdf, hk]
  · intro status hstatus
    simp [Handshake.client_handshake, Handshake.gateway_reply_material,
      Handshake.aes_encrypt, Handshake.aes_decrypt,
      Handshake.verify_shares, Handshake.sign_shares, Handshake.kdf, hk,
      hstatus]
  · intro w hw
    simp [Handshake.client_handshake, Handshake.gateway_reply_material,
      Handshake.aes_encrypt, Handshake.aes_decrypt,
      Handshake.verify_shares, Handshake.sign_shares, Handshake.kdf, hk,
      hw]

/-- C4 witness: a concrete honest run, a nonzero `DONE` status, malformed
and transport-error responses, and a forged gateway signature. -/
theorem c4_client_handshake_protocol_witness :
    Handshake.client_handshake ⟨10⟩ 20 3
        (Handshake.gateway_reply_material ⟨20⟩ 4)
        (Handshake.gateway_reply_done 10 4 (Handshake.gpow 3)) =
      (.ok (Handshake.kdf (Handshake.dh_shared 3 (Handshake.gpow 4))),
        [.initial 10 (Handshake.gpow 3),
          .clientMaterial
            (Handshake.aes_encrypt
              (Handshake.kdf (Handshake.dh_shared 3 (Handshake.gpow 4))).key
              (Handshake.sign_shares 10 (Handshake.gpow 3)
                (Handshake.gpow 4)))]) ∧
    Handshake.dh_shared 3 (Handshake.gpow 4) =
      Handshake.dh_shared 4 (Handshake.gpow 3) ∧
    (Handshake.client_handshake ⟨10⟩ 20 3
        (Handshake.gateway_reply_material ⟨20⟩ 4)
        (fun _ => .frame (.done 1))).1 = .error (.remoteFailure 1) ∧
    (Handshake.client_handshake ⟨10⟩ 20 3 (fun _ => .malformed)
        (fun _ => .malformed)).1 = .error .malformedResponse ∧
    (Handshake.client_handshake ⟨10⟩ 20 3 (fun _ => .transportError)
        (fun _ => .malformed)).1 = .error .networkError ∧
    (Handshake.client_handshake ⟨10⟩ 20 3
        (Handshake.gateway_reply_material ⟨21⟩ 4)
        (fun _ => .malformed)).1 = .error .invalidSignature :=
  have h := c4_client_handshake_protocol ⟨10⟩ ⟨20⟩ 3 4 (fun _ => .malformed)
  ⟨h.1, h.2.1, h.2.2.1 1 (by decide), h.2.2.2.1, h.2.2.2.2.1,
    h.2.2.2.2.2 21 (by decide)⟩



